import Mathlib

/-!
Verification development for the ANTsRegistration class of raidionics_maps
(file raidionicsmaps/Utils/ants_registration.py).

The class is a dispatcher over two backends ("python" via the ants library,
"cpp" via command-line tools). We embed its session state, its path
bookkeeping and its control flow shallowly:

* filesystem paths are plain strings; os.path.join is modelled by pathJoin
  for the relative second arguments this module always uses;
* the external toolkit (library calls and subprocess invocations) is an
  environment: each operation takes the outcome of its external calls as
  explicit arguments (a Bool for success, an Option RegTransform for the
  result of ants.registration) and records the calls it performs in a trace;
* Python exceptions (raise / try / except) are modelled with Except PyError;
  image_read and image_write are modelled as succeeding, since every claim
  concerns the registration and resampling calls;
* the filesystem is modelled, only where clear_cache needs it, as the list
  of existing paths; shutil.rmtree removes a folder and everything under it.
-/

/-- The transform-chain dictionary returned by ants.registration and cached
in self.reg_transform: the fwdtransforms and invtransforms file lists.
A fresh object holds the empty dict, modelled as Option.none. -/
structure RegTransform where
  fwdtransforms : List String
  invtransforms : List String
deriving DecidableEq

/-- The session state of an ANTsRegistration object: the directories taken
from SharedResources, the working folder, the cached chain dictionary, the
cached transform-file name lists, the computed flag and the backend tag. -/
structure ANTsRegistration where
  ants_reg_dir : String
  ants_apply_dir : String
  registration_folder : String
  reg_transform : Option RegTransform
  transform_names : List String
  inverse_transform_names : List String
  registration_computed : Bool
  backend : String
deriving DecidableEq

/-- Python exceptions that can escape the methods: an explicitly raised
ValueError, or a KeyError from reading a missing dict key. -/
inductive PyError where
  | valueError (msg : String)
  | keyError (key : String)
deriving DecidableEq

/-- One invocation of the external registration toolkit: a subprocess.call,
a subprocess.Popen, an ants.registration library call, or an
ants.apply_transforms library call. -/
inductive TkCall where
  | subprocessCall (args : List String)
  | subprocessPopen (args : List String)
  | antsRegistration (fixed moving method : String)
  | antsApplyTransforms (fixed moving : String) (transformlist : List String)
      (interpolator : String) (whichtoinvert : List Bool)
deriving DecidableEq

/-- Whether a path string ends with a slash separator. -/
def endsWithSlash (s : String) : Bool :=
  match s.data.getLast? with
  | some c => c = '/'
  | none => false

/-- os.path.join for the calls in this module: the second argument is always
a relative path, and registration_folder carries a trailing slash. -/
def pathJoin (a b : String) : String :=
  if endsWithSlash a then a ++ b else a ++ "/" ++ b

/-- os.path.basename: the component after the last slash. -/
def pyBasename (p : String) : String :=
  (p.splitOn "/").getLastD p

/-- str.split with a dot, index 0: the part before the first dot. -/
def dotStem (s : String) : String :=
  (s.splitOn ".").headD s

/-- The "-t" argument pairs built for a transform chain, one pair per chain
element in chain order. -/
def tFlags : List String → List String
  | [] => []
  | t :: rest => "-t" :: t :: tFlags rest

/-- Extract the value following each "-t" flag of an argument segment. -/
def tFlagValues : List String → List String
  | [] => []
  | a :: rest =>
    if a = "-t" then
      match rest with
      | [] => []
      | v :: rest2 => v :: tFlagValues rest2
    else tFlagValues rest

/-- The "[transform, 1]" wrapping marking a chain element for inversion in
an antsApplyTransforms command. -/
def invertWrap (t : String) : String := "[" ++ t ++ ", 1]"

/-- The "-t" argument segment of apply_registration_transform_cpp: the
branches of its if/elif ladder on the chain length. Lengths 4, 2 and 1 build
the segment; any other length leaves args unassigned (none). The empty
chain is rejected before this ladder is consulted. -/
def fwdTransformArgs (ts : List String) : Option (List String) :=
  match ts with
  | [t0, t1, t2, t3] => some ["-t", t0, "-t", t1, "-t", t2, "-t", t3]
  | [t0, t1] => some ["-t", t0, "-t", t1]
  | [t0] => some ["-t", t0]
  | _ => none

/-- The "-t" argument segment of apply_registration_inverse_transform_cpp:
as in the forward case, but the elements at the positions holding affine
.mat files (index 1, indices 1 and 3, or index 0 in the rigid case) are
wrapped as "[transform, 1]". -/
def invTransformArgs (ts : List String) : Option (List String) :=
  match ts with
  | [t0, t1, t2, t3] =>
      some ["-t", t0, "-t", invertWrap t1, "-t", t2, "-t", invertWrap t3]
  | [t0, t1] => some ["-t", t0, "-t", invertWrap t1]
  | [t0] => some ["-t", invertWrap t0]
  | _ => none

/-- compute_registration_cpp: maps SyN to sq, picks the script and final
method tag, performs one subprocess.call, and on success with tag s caches
the SyN transform chain and name lists. Every exception from the call is
caught and printed, so the method always returns normally. -/
def compute_registration_cpp (st : ANTsRegistration)
    (moving fixed registration_method : String) (callOk : Bool) :
    ANTsRegistration × List TkCall :=
  let m1 := if registration_method = "SyN" then "sq" else registration_method
  let script :=
    if m1 = "sq" then pathJoin st.ants_reg_dir "antsRegistrationSyNQuick.sh"
    else pathJoin st.ants_reg_dir "antsRegistrationSyN.sh"
  let m2 := if m1 = "sq" then "s" else m1
  let args := [script, "-d3", "-f" ++ fixed, "-m" ++ moving,
               "-o" ++ st.registration_folder, "-t" ++ m2, "-n8"]
  let trace := [TkCall.subprocessCall args]
  if callOk ∧ m2 = "s" then
    ({ st with
        reg_transform := some
          { fwdtransforms := [pathJoin st.registration_folder "1Warp.nii.gz",
                              pathJoin st.registration_folder "0GenericAffine.mat"],
            invtransforms := [pathJoin st.registration_folder "1InverseWarp.nii.gz",
                              pathJoin st.registration_folder "0GenericAffine.mat"] },
        transform_names := ["1Warp.nii.gz", "0GenericAffine.mat"],
        inverse_transform_names := ["1InverseWarp.nii.gz", "0GenericAffine.mat"] },
     trace)
  else (st, trace)

/-- compute_registration_python: renames the SyNQuick method strings to SyN,
calls ants.registration (its result, or its failure, is the regResult
argument), stores the result in reg_transform, then resamples the moving
image with the forward chain. Any failure raises ValueError. -/
def compute_registration_python (st : ANTsRegistration)
    (moving fixed registration_method : String)
    (regResult : Option RegTransform) (applyOk : Bool) :
    Except PyError Unit × ANTsRegistration × List TkCall :=
  let m := if registration_method = "antsRegistrationSyNQuick[s]" ∨
              registration_method = "antsRegistrationSyN[s]"
           then "SyN" else registration_method
  match regResult with
  | none =>
      (.error (.valueError "Python-based ANTs registration failed.\n"), st,
       [TkCall.antsRegistration fixed moving m])
  | some rt =>
      let st2 := { st with reg_transform := some rt }
      let trace := [TkCall.antsRegistration fixed moving m,
                    TkCall.antsApplyTransforms fixed moving rt.fwdtransforms
                      "linear" [false, false]]
      if applyOk then (.ok (), st2, trace)
      else (.error (.valueError "Python-based ANTs registration failed.\n"), st2, trace)

/-- compute_registration: returns at once when both cached name lists are
non-empty; otherwise dispatches on the backend and, when the backend method
returns normally, sets registration_computed. An unrecognised backend does
no work but still sets the flag. -/
def compute_registration (st : ANTsRegistration)
    (moving fixed registration_method : String)
    (regResult : Option RegTransform) (applyOk callOk : Bool) :
    Except PyError Unit × ANTsRegistration × List TkCall :=
  if st.transform_names ≠ [] ∧ st.inverse_transform_names ≠ [] then
    (.ok (), st, [])
  else if st.backend = "python" then
    match compute_registration_python st moving fixed registration_method regResult applyOk with
    | (.ok _, st2, tr) => (.ok (), { st2 with registration_computed := true }, tr)
    | (.error e, st2, tr) => (.error e, st2, tr)
  else if st.backend = "cpp" then
    let r := compute_registration_cpp st moving fixed registration_method callOk
    (.ok (), { r.1 with registration_computed := true }, r.2)
  else
    (.ok (), { st with registration_computed := true }, [])

/-- apply_registration_transform_cpp: reads the fwdtransforms list (KeyError
when the dict is empty), raises ValueError on an empty list, builds the
command for chain lengths 4, 2 and 1, and runs one subprocess.Popen. A chain
of any other length leaves args unassigned, and the resulting error inside
the try block is converted to ValueError with no process started. A Popen
failure also becomes ValueError. On success it returns the output path. -/
def apply_registration_transform_cpp (st : ANTsRegistration)
    (moving fixed interpolation : String) (popenOk : Bool) :
    Except PyError (Option String) × List TkCall :=
  let optMethod := if interpolation = "linear" then "Linear" else "NearestNeighbor"
  let script := pathJoin st.ants_apply_dir "antsApplyTransforms"
  match st.reg_transform with
  | none => (.error (.keyError "fwdtransforms"), [])
  | some rt =>
    let ts := rt.fwdtransforms
    let out := pathJoin st.registration_folder
      (dotStem (pyBasename moving) ++ "_reg_atlas.nii.gz")
    if ts.length = 0 then
      (.error (.valueError "List of transforms is empty."), [])
    else
      match fwdTransformArgs ts with
      | none => (.error (.valueError "Cpp-based ANTs apply registration failed.\n"), [])
      | some targs =>
          let args := [script, "-d", "3", "-r", fixed, "-i", moving] ++ targs ++
                      ["-o", out, "-n", optMethod]
          if popenOk then (.ok (some out), [TkCall.subprocessPopen args])
          else (.error (.valueError "Cpp-based ANTs apply registration failed.\n"),
                [TkCall.subprocessPopen args])

/-- apply_registration_inverse_transform_cpp: like the forward cpp apply but
over invtransforms, with the inversion wrapping, with the interpolation test
written the other way round, and with a different output name. Its except
block does not re-raise: any failure after the empty-list check is printed
and the method returns None normally. -/
def apply_registration_inverse_transform_cpp (st : ANTsRegistration)
    (moving fixed interpolation label : String) (popenOk : Bool) :
    Except PyError (Option String) × List TkCall :=
  let optMethod := if interpolation = "nearestNeighbor" then "NearestNeighbor" else "Linear"
  let script := pathJoin st.ants_apply_dir "antsApplyTransforms"
  match st.reg_transform with
  | none => (.error (.keyError "invtransforms"), [])
  | some rt =>
    let ts := rt.invtransforms
    let out := pathJoin st.registration_folder (label ++ "_mask_to_input.nii.gz")
    if ts.length = 0 then
      (.error (.valueError "List of transforms is empty."), [])
    else
      match invTransformArgs ts with
      | none => (.ok none, [])
      | some targs =>
          let args := [script, "-d", "3", "-r", fixed, "-i", moving] ++ targs ++
                      ["-o", out, "-n", optMethod]
          if popenOk then (.ok (some out), [TkCall.subprocessPopen args])
          else (.ok none, [TkCall.subprocessPopen args])

/-- apply_registration_transform_python: one ants.apply_transforms call with
the forward chain and whichtoinvert [False, False]; the output path is fixed.
Every failure in the try block, a missing fwdtransforms key included, raises
ValueError. -/
def apply_registration_transform_python (st : ANTsRegistration)
    (moving fixed interpolation : String) (applyOk : Bool) :
    Except PyError (Option String) × List TkCall :=
  match st.reg_transform with
  | none => (.error (.valueError "Python-based ANTs apply registration failed.\n"), [])
  | some rt =>
    let out := pathJoin st.registration_folder "warped_input_to_output_space.nii.gz"
    let tr := [TkCall.antsApplyTransforms fixed moving rt.fwdtransforms
                interpolation [false, false]]
    if applyOk then (.ok (some out), tr)
    else (.error (.valueError "Python-based ANTs apply registration failed.\n"), tr)

/-- apply_registration_inverse_transform_python: one ants.apply_transforms
call with the inverse chain and whichtoinvert [True, False]. Its except
block does not re-raise: any failure, a missing invtransforms key included,
is printed and the method returns None normally. -/
def apply_registration_inverse_transform_python (st : ANTsRegistration)
    (moving fixed interpolation label : String) (applyOk : Bool) :
    Except PyError (Option String) × List TkCall :=
  match st.reg_transform with
  | none => (.ok none, [])
  | some rt =>
    let out := pathJoin st.registration_folder (label ++ "_mask.nii.gz")
    let tr := [TkCall.antsApplyTransforms fixed moving rt.invtransforms
                interpolation [true, false]]
    if applyOk then (.ok (some out), tr)
    else (.ok none, tr)

/-- apply_registration_transform: backend dispatch; an unrecognised backend
falls through both branches and returns None. -/
def apply_registration_transform (st : ANTsRegistration)
    (moving fixed interpolation : String) (envOk : Bool) :
    Except PyError (Option String) × List TkCall :=
  if st.backend = "python" then
    apply_registration_transform_python st moving fixed interpolation envOk
  else if st.backend = "cpp" then
    apply_registration_transform_cpp st moving fixed interpolation envOk
  else (.ok none, [])

/-- apply_registration_inverse_transform: backend dispatch; an unrecognised
backend falls through both branches and returns None. -/
def apply_registration_inverse_transform (st : ANTsRegistration)
    (moving fixed interpolation label : String) (envOk : Bool) :
    Except PyError (Option String) × List TkCall :=
  if st.backend = "python" then
    apply_registration_inverse_transform_python st moving fixed interpolation label envOk
  else if st.backend = "cpp" then
    apply_registration_inverse_transform_cpp st moving fixed interpolation label envOk
  else (.ok none, [])

/-- The os.remove loop of clear_cache over one file list: each listed file
is removed when it exists. The filesystem is the list of existing paths. -/
def removeExistingFiles (names : List String) (fs : List String) : List String :=
  match names with
  | [] => fs
  | n :: rest => removeExistingFiles rest (fs.filter (fun q => decide (q ≠ n)))

/-- A path is the given folder or lies under it (shutil.rmtree removes the
folder together with its contents). -/
def pathUnder (folder p : String) : Bool :=
  decide (folder = p) || folder.isPrefixOf p

/-- clear_cache: with the python backend and a non-empty reg_transform dict,
remove every forward and inverse transform file that exists; then, when the
registration folder exists, remove the folder tree. Only the filesystem
changes; the object fields are not reset. -/
def clear_cache (st : ANTsRegistration) (fs : List String) : List String :=
  let fs1 :=
    if st.backend = "python" then
      match st.reg_transform with
      | some rt => removeExistingFiles rt.invtransforms
                     (removeExistingFiles rt.fwdtransforms fs)
      | none => fs
    else fs
  if st.registration_folder ∈ fs1 then
    fs1.filter (fun p => !(pathUnder st.registration_folder p))
  else fs1

/-! Concrete objects used to evaluate the development on explicit inputs. -/

/-- A fresh python-backend object, as built by the constructor. -/
def st0 : ANTsRegistration :=
  { ants_reg_dir := "/opt/ANTs/reg"
    ants_apply_dir := "/opt/ANTs/apply"
    registration_folder := "/output/registration/"
    reg_transform := none
    transform_names := []
    inverse_transform_names := []
    registration_computed := false
    backend := "python" }

/-- A transform chain as the python ants.registration call returns it. -/
def rtA : RegTransform :=
  { fwdtransforms := ["/tmp/tmpw1Warp.nii.gz", "/tmp/tmpa0GenericAffine.mat"]
    invtransforms := ["/tmp/tmpi1InverseWarp.nii.gz", "/tmp/tmpa0GenericAffine.mat"] }

/-- A second, distinct chain returned by a later registration run. -/
def rtB : RegTransform :=
  { fwdtransforms := ["/tmp/tmpx1Warp.nii.gz", "/tmp/tmpy0GenericAffine.mat"]
    invtransforms := ["/tmp/tmpz1InverseWarp.nii.gz", "/tmp/tmpy0GenericAffine.mat"] }

/-- The python-backend state after one successful compute_registration. -/
def st1 : ANTsRegistration :=
  (compute_registration st0 "moving.nii.gz" "fixed.nii.gz" "SyN" (some rtA) true true).2.1

/-- A fresh cpp-backend object. -/
def stCpp : ANTsRegistration := { st0 with backend := "cpp" }

/-- The cpp-backend state after one successful SyN compute_registration. -/
def stCppChain : ANTsRegistration :=
  (compute_registration stCpp "moving.nii.gz" "fixed.nii.gz" "SyN" none true true).2.1

/-- A length-3 transform chain (within the 1 to 4 range of the data model). -/
def rt3 : RegTransform :=
  { fwdtransforms := ["/tmp/w1.nii.gz", "/tmp/a1.mat", "/tmp/a2.mat"]
    invtransforms := ["/tmp/iw1.nii.gz", "/tmp/a1.mat", "/tmp/a2.mat"] }

/-- A cpp-backend object holding the length-3 chain. -/
def stCpp3 : ANTsRegistration := { stCpp with reg_transform := some rt3 }

/-- A second length-3 chain with different file names. -/
def rt3b : RegTransform :=
  { fwdtransforms := ["/d/warp.nii.gz", "/d/m1.mat", "/d/m2.mat"]
    invtransforms := ["/d/iwarp.nii.gz", "/d/m1.mat", "/d/m2.mat"] }

/-- A cpp-backend object holding the second length-3 chain. -/
def stCpp3b : ANTsRegistration := { stCpp with reg_transform := some rt3b }

/-- A python-backend object whose reg_transform dict is still empty. -/
def stPyNoChain : ANTsRegistration := st0

/-- A cpp-backend object whose reg_transform dict is still empty. -/
def stCppNoChain : ANTsRegistration := stCpp

/-- A python-backend object caching empty transform lists. -/
def stEmptyChain : ANTsRegistration :=
  { st0 with reg_transform := some { fwdtransforms := [], invtransforms := [] } }

/-- An object with an unrecognised backend tag. -/
def stOther : ANTsRegistration := { st0 with backend := "matlab" }

/-- A sample filesystem: the working folder, a transform file inside it, the
cached temporary transform files of rtA, and an unrelated input file. -/
def fsSample : List String :=
  ["/output/registration/", "/output/registration/1Warp.nii.gz",
   "/tmp/tmpw1Warp.nii.gz", "/tmp/tmpa0GenericAffine.mat",
   "/tmp/tmpi1InverseWarp.nii.gz", "/data/input.nii.gz"]

/-- A python-backend object caching the rtA chain, as after one compute. -/
def stPyChain : ANTsRegistration := { st0 with reg_transform := some rtA }

/-- The SyN transform chain cached by a cpp-backend compute on the sample
working folder. -/
def rtSyn : RegTransform :=
  { fwdtransforms := ["/output/registration/1Warp.nii.gz",
                      "/output/registration/0GenericAffine.mat"]
    invtransforms := ["/output/registration/1InverseWarp.nii.gz",
                      "/output/registration/0GenericAffine.mat"] }

/-! Supporting lemmas. -/

/-- Membership after the os.remove loop: a surviving path already existed
and is not one of the removed names. -/
theorem mem_removeExistingFiles {p : String} :
    ∀ (names fs : List String), p ∈ removeExistingFiles names fs →
      p ∈ fs ∧ p ∉ names := by
  intro names
  induction names with
  | nil => intro fs h; simpa [removeExistingFiles] using h
  | cons n rest ih =>
      intro fs h
      rw [removeExistingFiles] at h
      obtain ⟨h1, h2⟩ := ih _ h
      rw [List.mem_filter] at h1
      refine ⟨h1.1, ?_⟩
      intro hc
      rcases List.mem_cons.mp hc with hc | hc
      · exact (by simpa [hc] using h1.2)
      · exact h2 hc

/-- Extracting the values of the "-t" pairs recovers the chain. -/
theorem tFlagValues_tFlags : ∀ ts : List String, tFlagValues (tFlags ts) = ts := by
  intro ts
  induction ts with
  | nil => rfl
  | cons t rest ih => simp [tFlags, tFlagValues, ih]

/-- For the handled chain lengths, the forward ladder builds exactly the
"-t" pairs of the chain, in chain order. -/
theorem fwdTransformArgs_eq_tFlags (ts : List String)
    (h : ts.length = 1 ∨ ts.length = 2 ∨ ts.length = 4) :
    fwdTransformArgs ts = some (tFlags ts) := by
  rcases ts with _ | ⟨a, _ | ⟨b, _ | ⟨c, _ | ⟨d, _ | ⟨e, rest⟩⟩⟩⟩⟩ <;>
    simp_all [fwdTransformArgs, tFlags]

/-- For the handled chain lengths, the inverse ladder builds one "-t" pair
per chain element in order, each value the element itself or its inversion
wrapping. -/
theorem invTransformArgs_spec (ts : List String)
    (h : ts.length = 1 ∨ ts.length = 2 ∨ ts.length = 4) :
    ∃ itargs, invTransformArgs ts = some itargs ∧
      List.Forall₂ (fun w t => w = t ∨ w = invertWrap t) (tFlagValues itargs) ts := by
  rcases ts with _ | ⟨a, _ | ⟨b, _ | ⟨c, _ | ⟨d, _ | ⟨e, rest⟩⟩⟩⟩⟩
  · simp at h
  · exact ⟨["-t", invertWrap a], by simp [invTransformArgs, tFlagValues]⟩
  · exact ⟨["-t", a, "-t", invertWrap b], by simp [invTransformArgs, tFlagValues]⟩
  · simp at h
  · exact ⟨["-t", a, "-t", invertWrap b, "-t", c, "-t", invertWrap d],
      by simp [invTransformArgs, tFlagValues]⟩
  · simp at h

/-! Claim theorems. -/

/-- C1 counterexample: with the python backend, one successful
compute_registration populates the cached chain (reg_transform = some rtA),
yet a second call is not a no-op: it performs external calls again and
replaces the cached chain with the new registration result rtB. -/
theorem C1_counterexample :
    st1.reg_transform = some rtA ∧
    rtA ≠ rtB ∧
    (compute_registration st1 "moving.nii.gz" "fixed.nii.gz" "SyN"
        (some rtB) true true).2.1.reg_transform = some rtB ∧
    (compute_registration st1 "moving.nii.gz" "fixed.nii.gz" "SyN"
        (some rtB) true true).2.2 ≠ [] := by
  refine ⟨rfl, by decide, rfl, by decide⟩

/-- C1 (amended): compute_registration is a no-op, leaving the state
unchanged and performing no external call, exactly when both cached
transform-name lists are non-empty; only the cpp backend ever populates
those lists, so only a cpp-computed cache suppresses recomputation. -/
theorem C1_compute_cached_names_noop (st : ANTsRegistration)
    (moving fixed registration_method : String) (regResult : Option RegTransform)
    (applyOk callOk : Bool)
    (h1 : st.transform_names ≠ []) (h2 : st.inverse_transform_names ≠ []) :
    compute_registration st moving fixed registration_method regResult applyOk callOk
      = (.ok (), st, []) := by
  simp only [compute_registration]
  rw [if_pos ⟨h1, h2⟩]

/-- C1 witness: the state after a successful cpp SyN compute has both name
lists populated, and a further compute_registration call on it is a no-op. -/
theorem C1_witness :
    stCppChain.transform_names ≠ [] ∧ stCppChain.inverse_transform_names ≠ [] ∧
    compute_registration stCppChain "m2.nii.gz" "f2.nii.gz" "SyN" none true true
      = (.ok (), stCppChain, []) :=
  ⟨by decide, by decide,
   C1_compute_cached_names_noop stCppChain "m2.nii.gz" "f2.nii.gz" "SyN" none true true
     (by decide) (by decide)⟩

/-- C9: with a backend tag that is neither python nor cpp,
compute_registration does no registration work (no external call) yet still
sets registration_computed and returns None, and both apply dispatchers
return None instead of an output path. -/
theorem C9_unknown_backend (st : ANTsRegistration)
    (moving fixed registration_method interp label : String)
    (regResult : Option RegTransform) (applyOk callOk ok1 ok2 : Bool)
    (hb1 : st.backend ≠ "python") (hb2 : st.backend ≠ "cpp")
    (hn : st.transform_names = [] ∨ st.inverse_transform_names = []) :
    compute_registration st moving fixed registration_method regResult applyOk callOk
      = (.ok (), { st with registration_computed := true }, [])
  ∧ apply_registration_transform st moving fixed interp ok1 = (.ok none, [])
  ∧ apply_registration_inverse_transform st moving fixed interp label ok2
      = (.ok none, []) := by
  have hg : ¬ (st.transform_names ≠ [] ∧ st.inverse_transform_names ≠ []) := by
    rcases hn with h | h <;> simp [h]
  refine ⟨?_, ?_, ?_⟩
  · simp only [compute_registration]
    rw [if_neg hg, if_neg hb1, if_neg hb2]
  · simp only [apply_registration_transform]
    rw [if_neg hb1, if_neg hb2]
  · simp only [apply_registration_inverse_transform]
    rw [if_neg hb1, if_neg hb2]

/-- C9 witness: the unrecognised backend tag matlab on a fresh state. -/
theorem C9_witness :
    stOther.backend ≠ "python" ∧ stOther.backend ≠ "cpp" ∧
    (stOther.transform_names = [] ∨ stOther.inverse_transform_names = []) ∧
    (compute_registration stOther "m.nii.gz" "f.nii.gz" "SyN" none true true
        = (.ok (), { stOther with registration_computed := true }, [])
     ∧ apply_registration_transform stOther "m.nii.gz" "f.nii.gz" "linear" true
        = (.ok none, [])
     ∧ apply_registration_inverse_transform stOther "m.nii.gz" "f.nii.gz" "linear" "T1" true
        = (.ok none, [])) :=
  ⟨by decide, by decide, Or.inl rfl,
   C9_unknown_backend stOther "m.nii.gz" "f.nii.gz" "SyN" "linear" "T1" none true true true true
     (by decide) (by decide) (Or.inl rfl)⟩

/-- C10: a successful python-backend forward apply returns the fixed output
path, the working folder joined with warped_input_to_output_space.nii.gz,
whatever the moving and fixed inputs are, so two successive forward applies
return the same path. -/
theorem C10_python_forward_path (st : ANTsRegistration) (rt : RegTransform)
    (m1 f1 m2 f2 i1 i2 : String) (hc : st.reg_transform = some rt) :
    (apply_registration_transform_python st m1 f1 i1 true).1
      = .ok (some (pathJoin st.registration_folder "warped_input_to_output_space.nii.gz"))
  ∧ (apply_registration_transform_python st m1 f1 i1 true).1
      = (apply_registration_transform_python st m2 f2 i2 true).1 := by
  simp [apply_registration_transform_python, hc]

/-- C10 witness: two forward applies with different inputs on a populated
python-backend state return the same fixed path. -/
theorem C10_witness :
    stPyChain.reg_transform = some rtA ∧
    ((apply_registration_transform_python stPyChain "a.nii.gz" "b.nii.gz" "linear" true).1
       = .ok (some (pathJoin stPyChain.registration_folder "warped_input_to_output_space.nii.gz"))
     ∧ (apply_registration_transform_python stPyChain "a.nii.gz" "b.nii.gz" "linear" true).1
       = (apply_registration_transform_python stPyChain "c.nii.gz" "d.nii.gz" "nearestNeighbor" true).1) :=
  ⟨rfl, C10_python_forward_path stPyChain rtA "a.nii.gz" "b.nii.gz" "c.nii.gz" "d.nii.gz"
     "linear" "nearestNeighbor" rfl⟩

/-- A path is never a member of the rmtree stage outcome when it is the
folder being removed. -/
theorem not_mem_rm_stage (folder : String) (l : List String) :
    folder ∉ (if folder ∈ l then List.filter (fun p => !pathUnder folder p) l else l) := by
  split
  · intro h
    rw [List.mem_filter] at h
    simp [pathUnder] at h
  next hc => exact hc

/-- Membership in the rmtree stage outcome implies membership before it. -/
theorem mem_rm_stage {p folder : String} {l : List String}
    (h : p ∈ (if folder ∈ l then List.filter (fun q => !pathUnder folder q) l else l)) :
    p ∈ l := by
  split at h
  · exact (List.mem_filter.mp h).1
  · exact h

/-- C7: clear_cache removes the registration working folder whenever it
exists, and with the python backend removes every file listed in the cached
forward and inverse transform lists: afterwards neither the folder nor any
listed file exists. -/
theorem C7_clear_cache_removes (st : ANTsRegistration) (fs : List String) :
    st.registration_folder ∉ clear_cache st fs
  ∧ (∀ rt, st.backend = "python" → st.reg_transform = some rt →
      ∀ p, (p ∈ rt.fwdtransforms ∨ p ∈ rt.invtransforms) →
        p ∉ clear_cache st fs) := by
  constructor
  · simp only [clear_cache]
    exact not_mem_rm_stage _ _
  · intro rt hb hrt p hp h
    simp only [clear_cache, hb, hrt, if_true] at h
    have hfs1 : p ∈ removeExistingFiles rt.invtransforms
        (removeExistingFiles rt.fwdtransforms fs) := mem_rm_stage h
    obtain ⟨h2, hnotinv⟩ := mem_removeExistingFiles _ _ hfs1
    obtain ⟨h3, hnotfwd⟩ := mem_removeExistingFiles _ _ h2
    rcases hp with hp | hp
    · exact hnotfwd hp
    · exact hnotinv hp

/-- C7 witness: on a sample filesystem, clearing a python-backend object
holding the rtA chain removes the working folder and a listed file. -/
theorem C7_witness :
    stPyChain.backend = "python" ∧ stPyChain.reg_transform = some rtA ∧
    "/tmp/tmpw1Warp.nii.gz" ∈ rtA.fwdtransforms ∧
    stPyChain.registration_folder ∉ clear_cache stPyChain fsSample ∧
    "/tmp/tmpw1Warp.nii.gz" ∉ clear_cache stPyChain fsSample :=
  ⟨rfl, rfl, by decide,
   (C7_clear_cache_removes stPyChain fsSample).1,
   (C7_clear_cache_removes stPyChain fsSample).2 rtA rfl rfl _ (Or.inl (by decide))⟩

/-- The python compute performs at most two toolkit calls. -/
theorem py_compute_trace_le (st : ANTsRegistration) (m f meth : String)
    (rr : Option RegTransform) (ao : Bool) :
    (compute_registration_python st m f meth rr ao).2.2.length ≤ 2 := by
  rcases rr with _ | rt <;> cases ao <;> simp [compute_registration_python]

/-- The cpp compute performs exactly one subprocess invocation. -/
theorem cpp_compute_trace_len (st : ANTsRegistration) (m f meth : String)
    (co : Bool) :
    (compute_registration_cpp st m f meth co).2.length = 1 := by
  simp only [compute_registration_cpp]
  repeat' split
  all_goals simp

/-- The cpp forward apply performs at most one subprocess invocation. -/
theorem cpp_fwd_apply_trace_le (st : ANTsRegistration) (m f i : String) (ok : Bool) :
    (apply_registration_transform_cpp st m f i ok).2.length ≤ 1 := by
  rcases hr : st.reg_transform with _ | rt <;>
    simp only [apply_registration_transform_cpp, hr]
  · simp
  · split
    · simp
    · rcases ha : fwdTransformArgs rt.fwdtransforms with _ | targs
      · simp [ha]
      · cases ok <;> simp [ha]

/-- The cpp inverse apply performs at most one subprocess invocation. -/
theorem cpp_inv_apply_trace_le (st : ANTsRegistration) (m f i l : String) (ok : Bool) :
    (apply_registration_inverse_transform_cpp st m f i l ok).2.length ≤ 1 := by
  rcases hr : st.reg_transform with _ | rt <;>
    simp only [apply_registration_inverse_transform_cpp, hr]
  · simp
  · split
    · simp
    · rcases ha : invTransformArgs rt.invtransforms with _ | targs
      · simp [ha]
      · cases ok <;> simp [ha]

/-- The python forward apply performs at most one toolkit call. -/
theorem py_fwd_apply_trace_le (st : ANTsRegistration) (m f i : String) (ok : Bool) :
    (apply_registration_transform_python st m f i ok).2.length ≤ 1 := by
  rcases hr : st.reg_transform with _ | rt <;> cases ok <;>
    simp [apply_registration_transform_python, hr]

/-- The python inverse apply performs at most one toolkit call. -/
theorem py_inv_apply_trace_le (st : ANTsRegistration) (m f i l : String) (ok : Bool) :
    (apply_registration_inverse_transform_python st m f i l ok).2.length ≤ 1 := by
  rcases hr : st.reg_transform with _ | rt <;> cases ok <;>
    simp [apply_registration_inverse_transform_python, hr]

/-- The compute dispatcher performs at most two toolkit calls. -/
theorem compute_trace_le (st : ANTsRegistration) (m f meth : String)
    (rr : Option RegTransform) (ao co : Bool) :
    (compute_registration st m f meth rr ao co).2.2.length ≤ 2 := by
  simp only [compute_registration]
  split
  · simp
  · split
    · rcases hr : compute_registration_python st m f meth rr ao with ⟨r, st2, tr⟩
      have h2 : tr.length ≤ 2 := by
        have := py_compute_trace_le st m f meth rr ao
        rw [hr] at this
        exact this
      rcases r with u | e <;> simpa using h2
    · split
      · simpa using Nat.le_of_eq (cpp_compute_trace_len st m f meth co) |>.trans (by omega)
      · simp

/-- C8 counterexample: a single successful python-backend compute performs
two toolkit calls (ants.registration, then ants.apply_transforms), not
exactly one. -/
theorem C8_counterexample :
    ((compute_registration st0 "moving.nii.gz" "fixed.nii.gz" "SyN"
        (some rtA) true true).2.2).length = 2 := rfl

/-- C8 (amended): no operation retries: the cpp compute performs exactly one
subprocess invocation whatever its outcome, the python compute performs at
most two toolkit calls (exactly one when the registration step fails, so a
failure is terminal), and every apply operation performs at most one toolkit
call whatever its outcome. -/
theorem C8_single_call_bounds (st : ANTsRegistration)
    (moving fixed registration_method interp label : String)
    (regResult : Option RegTransform) (applyOk callOk ok : Bool) :
    (compute_registration_cpp st moving fixed registration_method callOk).2.length = 1
  ∧ (compute_registration_python st moving fixed registration_method regResult applyOk).2.2.length ≤ 2
  ∧ (compute_registration_python st moving fixed registration_method none applyOk).2.2.length = 1
  ∧ (compute_registration st moving fixed registration_method regResult applyOk callOk).2.2.length ≤ 2
  ∧ (apply_registration_transform_cpp st moving fixed interp ok).2.length ≤ 1
  ∧ (apply_registration_inverse_transform_cpp st moving fixed interp label ok).2.length ≤ 1
  ∧ (apply_registration_transform_python st moving fixed interp ok).2.length ≤ 1
  ∧ (apply_registration_inverse_transform_python st moving fixed interp label ok).2.length ≤ 1
  ∧ (apply_registration_transform st moving fixed interp ok).2.length ≤ 1
  ∧ (apply_registration_inverse_transform st moving fixed interp label ok).2.length ≤ 1 := by
  refine ⟨cpp_compute_trace_len _ _ _ _ _,
          py_compute_trace_le _ _ _ _ _ _,
          by simp [compute_registration_python],
          compute_trace_le _ _ _ _ _ _ _,
          cpp_fwd_apply_trace_le _ _ _ _ _,
          cpp_inv_apply_trace_le _ _ _ _ _ _,
          py_fwd_apply_trace_le _ _ _ _ _,
          py_inv_apply_trace_le _ _ _ _ _ _,
          ?_, ?_⟩
  · simp only [apply_registration_transform]
    split
    · exact py_fwd_apply_trace_le _ _ _ _ _
    · split
      · exact cpp_fwd_apply_trace_le _ _ _ _ _
      · simp
  · simp only [apply_registration_inverse_transform]
    split
    · exact py_inv_apply_trace_le _ _ _ _ _ _
    · split
      · exact cpp_inv_apply_trace_le _ _ _ _ _ _
      · simp

/-- C2 counterexample: on the state cached by a successful cpp SyN compute,
a failing cpp inverse apply does not raise: it returns None normally. -/
theorem C2_counterexample :
    (apply_registration_inverse_transform_cpp stCppChain "m.nii.gz" "f.nii.gz"
        "nearestNeighbor" "T1" false).1 = .ok none := rfl

/-- C2 (amended): failures of the external step raise ValueError only in
compute_registration_python, apply_registration_transform_python and
apply_registration_transform_cpp; compute_registration_cpp,
apply_registration_inverse_transform_cpp and
apply_registration_inverse_transform_python catch the failure and return
normally. -/
theorem C2_failure_surfacing (st : ANTsRegistration)
    (moving fixed registration_method interp label a b c d : String)
    (hc : st.reg_transform = some { fwdtransforms := [a, b], invtransforms := [c, d] }) :
    (compute_registration_python st moving fixed registration_method none true).1
      = .error (.valueError "Python-based ANTs registration failed.\n")
  ∧ (apply_registration_transform_python st moving fixed interp false).1
      = .error (.valueError "Python-based ANTs apply registration failed.\n")
  ∧ (apply_registration_transform_cpp st moving fixed interp false).1
      = .error (.valueError "Cpp-based ANTs apply registration failed.\n")
  ∧ (compute_registration
        { st with backend := "cpp", transform_names := [], inverse_transform_names := [] }
        moving fixed registration_method none true false).1
      = .ok ()
  ∧ (apply_registration_inverse_transform_cpp st moving fixed interp label false).1
      = .ok none
  ∧ (apply_registration_inverse_transform_python st moving fixed interp label false).1
      = .ok none := by
  refine ⟨rfl, ?_, ?_, ?_, ?_, ?_⟩
  · simp [apply_registration_transform_python, hc]
  · simp [apply_registration_transform_cpp, hc, fwdTransformArgs]
  · simp [compute_registration]
  · simp [apply_registration_inverse_transform_cpp, hc, invTransformArgs]
  · simp [apply_registration_inverse_transform_python, hc]

/-- C2 witness: the amended behaviour evaluated on the state cached by a
successful cpp SyN compute. -/
theorem C2_witness :
    stCppChain.reg_transform = some
      { fwdtransforms := rtSyn.fwdtransforms, invtransforms := rtSyn.invtransforms } ∧
    ((compute_registration_python stCppChain "m.nii.gz" "f.nii.gz" "SyN" none true).1
        = .error (.valueError "Python-based ANTs registration failed.\n")
     ∧ (apply_registration_transform_python stCppChain "m.nii.gz" "f.nii.gz" "linear" false).1
        = .error (.valueError "Python-based ANTs apply registration failed.\n")
     ∧ (apply_registration_transform_cpp stCppChain "m.nii.gz" "f.nii.gz" "linear" false).1
        = .error (.valueError "Cpp-based ANTs apply registration failed.\n")
     ∧ (compute_registration
          { stCppChain with backend := "cpp", transform_names := [], inverse_transform_names := [] }
          "m.nii.gz" "f.nii.gz" "SyN" none true false).1
        = .ok ()
     ∧ (apply_registration_inverse_transform_cpp stCppChain "m.nii.gz" "f.nii.gz" "linear" "T1" false).1
        = .ok none
     ∧ (apply_registration_inverse_transform_python stCppChain "m.nii.gz" "f.nii.gz" "linear" "T1" false).1
        = .ok none) :=
  ⟨by decide, C2_failure_surfacing stCppChain "m.nii.gz" "f.nii.gz" "SyN" "linear" "T1"
     "/output/registration/1Warp.nii.gz" "/output/registration/0GenericAffine.mat"
     "/output/registration/1InverseWarp.nii.gz" "/output/registration/0GenericAffine.mat"
     (by decide)⟩

/-- C3 counterexample: a chain of length 3, inside the 1 to 4 range of the
data model, is unhandled by both cpp apply operations: no resampling
command is constructed (empty trace), the forward apply raises ValueError
and the inverse apply returns None; neither returns the output path. -/
theorem C3_counterexample :
    stCpp3.reg_transform = some rt3 ∧ rt3.fwdtransforms.length = 3 ∧
    apply_registration_transform_cpp stCpp3 "mov.nii.gz" "fix.nii.gz" "linear" true
      = (.error (.valueError "Cpp-based ANTs apply registration failed.\n"), [])
  ∧ apply_registration_inverse_transform_cpp stCpp3 "mov.nii.gz" "fix.nii.gz" "linear" "T2" true
      = (.ok none, []) :=
  ⟨rfl, rfl, rfl, rfl⟩

/-- C3 (amended): for cached chains of length 1, 2 or 4 the cpp apply
operations build a command holding one -t argument per chain element in
chain order (the inverse command wrapping elements for inversion) and on
success return the output path; a length-3 chain is unhandled. -/
theorem C3_cpp_chain_args (st : ANTsRegistration) (moving fixed interp label : String)
    (rt : RegTransform) (hc : st.reg_transform = some rt)
    (hf : rt.fwdtransforms.length = 1 ∨ rt.fwdtransforms.length = 2 ∨
          rt.fwdtransforms.length = 4)
    (hi : rt.invtransforms.length = 1 ∨ rt.invtransforms.length = 2 ∨
          rt.invtransforms.length = 4) :
    fwdTransformArgs rt.fwdtransforms = some (tFlags rt.fwdtransforms)
  ∧ tFlagValues (tFlags rt.fwdtransforms) = rt.fwdtransforms
  ∧ (∃ itargs, invTransformArgs rt.invtransforms = some itargs ∧
      List.Forall₂ (fun w t => w = t ∨ w = invertWrap t) (tFlagValues itargs)
        rt.invtransforms)
  ∧ (apply_registration_transform_cpp st moving fixed interp true).1
      = .ok (some (pathJoin st.registration_folder
          (dotStem (pyBasename moving) ++ "_reg_atlas.nii.gz")))
  ∧ (apply_registration_inverse_transform_cpp st moving fixed interp label true).1
      = .ok (some (pathJoin st.registration_folder (label ++ "_mask_to_input.nii.gz"))) := by
  have hfa := fwdTransformArgs_eq_tFlags _ hf
  have hia := invTransformArgs_spec _ hi
  have hne : rt.fwdtransforms.length ≠ 0 := by rcases hf with h | h | h <;> omega
  have hne2 : rt.invtransforms.length ≠ 0 := by rcases hi with h | h | h <;> omega
  obtain ⟨itargs, hia1, hia2⟩ := hia
  refine ⟨hfa, tFlagValues_tFlags _, ⟨itargs, hia1, hia2⟩, ?_, ?_⟩
  · simp [apply_registration_transform_cpp, hc, hne, hfa]
  · simp [apply_registration_inverse_transform_cpp, hc, hne2, hia1]

/-- C3 witness: the amended behaviour on the length-2 SyN chain cached by a
cpp compute. -/
theorem C3_witness :
    stCppChain.reg_transform = some rtSyn ∧
    (rtSyn.fwdtransforms.length = 1 ∨ rtSyn.fwdtransforms.length = 2 ∨
       rtSyn.fwdtransforms.length = 4) ∧
    (rtSyn.invtransforms.length = 1 ∨ rtSyn.invtransforms.length = 2 ∨
       rtSyn.invtransforms.length = 4) ∧
    (fwdTransformArgs rtSyn.fwdtransforms = some (tFlags rtSyn.fwdtransforms)
     ∧ tFlagValues (tFlags rtSyn.fwdtransforms) = rtSyn.fwdtransforms
     ∧ (∃ itargs, invTransformArgs rtSyn.invtransforms = some itargs ∧
         List.Forall₂ (fun w t => w = t ∨ w = invertWrap t) (tFlagValues itargs)
           rtSyn.invtransforms)
     ∧ (apply_registration_transform_cpp stCppChain "mov.nii.gz" "fix.nii.gz" "linear" true).1
         = .ok (some (pathJoin stCppChain.registration_folder
             (dotStem (pyBasename "mov.nii.gz") ++ "_reg_atlas.nii.gz")))
     ∧ (apply_registration_inverse_transform_cpp stCppChain "mov.nii.gz" "fix.nii.gz"
           "linear" "T2" true).1
         = .ok (some (pathJoin stCppChain.registration_folder ("T2" ++ "_mask_to_input.nii.gz")))) :=
  ⟨by decide, Or.inr (Or.inl rfl), Or.inr (Or.inl rfl),
   C3_cpp_chain_args stCppChain "mov.nii.gz" "fix.nii.gz" "linear" "T2" rtSyn (by decide)
     (Or.inr (Or.inl rfl)) (Or.inr (Or.inl rfl))⟩

/-- C4: applying the inverse chain marks elements for inversion: the python
backend passes whichtoinvert [True, False] over the cached invtransforms
list and returns the label output path, and the cpp backend wraps the
affine element, cached second in the inverse chain by compute_registration_cpp,
as a bracketed pair and returns its output path. -/
theorem C4_inverse_invert_flags (st : ANTsRegistration)
    (moving fixed interp label iw aff : String) (fwd : List String)
    (hc : st.reg_transform = some { fwdtransforms := fwd, invtransforms := [iw, aff] }) :
    apply_registration_inverse_transform_python st moving fixed interp label true
      = (.ok (some (pathJoin st.registration_folder (label ++ "_mask.nii.gz"))),
         [TkCall.antsApplyTransforms fixed moving [iw, aff] interp [true, false]])
  ∧ invTransformArgs [iw, aff] = some ["-t", iw, "-t", invertWrap aff]
  ∧ (apply_registration_inverse_transform_cpp st moving fixed interp label true).1
      = .ok (some (pathJoin st.registration_folder (label ++ "_mask_to_input.nii.gz")))
  ∧ (compute_registration_cpp st moving fixed "SyN" true).1.reg_transform
      = some { fwdtransforms := [pathJoin st.registration_folder "1Warp.nii.gz",
                                 pathJoin st.registration_folder "0GenericAffine.mat"],
               invtransforms := [pathJoin st.registration_folder "1InverseWarp.nii.gz",
                                 pathJoin st.registration_folder "0GenericAffine.mat"] } := by
  refine ⟨?_, rfl, ?_, ?_⟩
  · simp [apply_registration_inverse_transform_python, hc]
  · simp [apply_registration_inverse_transform_cpp, hc, invTransformArgs]
  · simp [compute_registration_cpp]

/-- C4 witness: the inverse apply flags evaluated on the cpp SyN chain. -/
theorem C4_witness :
    stCppChain.reg_transform = some
      { fwdtransforms := rtSyn.fwdtransforms,
        invtransforms := ["/output/registration/1InverseWarp.nii.gz",
                          "/output/registration/0GenericAffine.mat"] } ∧
    (apply_registration_inverse_transform_python stCppChain "m.nii.gz" "f.nii.gz"
        "nearestNeighbor" "T1" true
      = (.ok (some (pathJoin stCppChain.registration_folder ("T1" ++ "_mask.nii.gz"))),
         [TkCall.antsApplyTransforms "f.nii.gz" "m.nii.gz"
            ["/output/registration/1InverseWarp.nii.gz",
             "/output/registration/0GenericAffine.mat"] "nearestNeighbor" [true, false]])
     ∧ invTransformArgs ["/output/registration/1InverseWarp.nii.gz",
                         "/output/registration/0GenericAffine.mat"]
        = some ["-t", "/output/registration/1InverseWarp.nii.gz",
                "-t", invertWrap "/output/registration/0GenericAffine.mat"]
     ∧ (apply_registration_inverse_transform_cpp stCppChain "m.nii.gz" "f.nii.gz"
           "nearestNeighbor" "T1" true).1
        = .ok (some (pathJoin stCppChain.registration_folder ("T1" ++ "_mask_to_input.nii.gz")))
     ∧ (compute_registration_cpp stCppChain "m.nii.gz" "f.nii.gz" "SyN" true).1.reg_transform
        = some { fwdtransforms := [pathJoin stCppChain.registration_folder "1Warp.nii.gz",
                                   pathJoin stCppChain.registration_folder "0GenericAffine.mat"],
                 invtransforms := [pathJoin stCppChain.registration_folder "1InverseWarp.nii.gz",
                                   pathJoin stCppChain.registration_folder "0GenericAffine.mat"] }) :=
  ⟨by decide, C4_inverse_invert_flags stCppChain "m.nii.gz" "f.nii.gz" "nearestNeighbor" "T1"
     "/output/registration/1InverseWarp.nii.gz" "/output/registration/0GenericAffine.mat"
     rtSyn.fwdtransforms (by decide)⟩

/-- C5 counterexample: with a populated forward chain of length 3 the cpp
forward apply does not resample and does not return an output path: it
raises ValueError. -/
theorem C5_counterexample :
    stCpp3b.reg_transform = some rt3b ∧ rt3b.fwdtransforms ≠ [] ∧
    (apply_registration_transform_cpp stCpp3b "scan.nii.gz" "atlas.nii.gz" "linear" true).1
      = .error (.valueError "Cpp-based ANTs apply registration failed.\n") :=
  ⟨rfl, by decide, rfl⟩

/-- C5 (amended): the forward apply resamples with the cached fwdtransforms
chain and no invert flags and returns the output path inside the working
folder: on the python backend for any populated chain, on the cpp backend
for the handled chain lengths 1, 2 and 4. -/
theorem C5_forward_apply (st : ANTsRegistration) (moving fixed interp : String)
    (rt : RegTransform) (hc : st.reg_transform = some rt)
    (hf : rt.fwdtransforms.length = 1 ∨ rt.fwdtransforms.length = 2 ∨
          rt.fwdtransforms.length = 4) :
    apply_registration_transform_python st moving fixed interp true
      = (.ok (some (pathJoin st.registration_folder "warped_input_to_output_space.nii.gz")),
         [TkCall.antsApplyTransforms fixed moving rt.fwdtransforms interp [false, false]])
  ∧ fwdTransformArgs rt.fwdtransforms = some (tFlags rt.fwdtransforms)
  ∧ (apply_registration_transform_cpp st moving fixed interp true).1
      = .ok (some (pathJoin st.registration_folder
          (dotStem (pyBasename moving) ++ "_reg_atlas.nii.gz"))) := by
  have hfa := fwdTransformArgs_eq_tFlags _ hf
  have hne : rt.fwdtransforms.length ≠ 0 := by rcases hf with h | h | h <;> omega
  exact ⟨by simp [apply_registration_transform_python, hc], hfa,
         by simp [apply_registration_transform_cpp, hc, hne, hfa]⟩

/-- C5 witness: the forward apply on a python-backend state caching rtA. -/
theorem C5_witness :
    stPyChain.reg_transform = some rtA ∧
    (rtA.fwdtransforms.length = 1 ∨ rtA.fwdtransforms.length = 2 ∨
       rtA.fwdtransforms.length = 4) ∧
    (apply_registration_transform_python stPyChain "scan.nii.gz" "atlas.nii.gz" "linear" true
      = (.ok (some (pathJoin stPyChain.registration_folder "warped_input_to_output_space.nii.gz")),
         [TkCall.antsApplyTransforms "atlas.nii.gz" "scan.nii.gz" rtA.fwdtransforms
            "linear" [false, false]])
     ∧ fwdTransformArgs rtA.fwdtransforms = some (tFlags rtA.fwdtransforms)
     ∧ (apply_registration_transform_cpp stPyChain "scan.nii.gz" "atlas.nii.gz" "linear" true).1
        = .ok (some (pathJoin stPyChain.registration_folder
            (dotStem (pyBasename "scan.nii.gz") ++ "_reg_atlas.nii.gz")))) :=
  ⟨rfl, Or.inr (Or.inl rfl),
   C5_forward_apply stPyChain "scan.nii.gz" "atlas.nii.gz" "linear" rtA rfl
     (Or.inr (Or.inl rfl))⟩

/-- C6 counterexample: an apply with a missing cached chain does not always
raise ValueError: the python inverse apply prints and returns None. -/
theorem C6_counterexample :
    stPyNoChain.reg_transform = none ∧
    apply_registration_inverse_transform_python stPyNoChain "m.nii.gz" "f.nii.gz"
        "nearestNeighbor" "T1" true = (.ok none, []) :=
  ⟨rfl, rfl⟩

/-- C6 (amended): on an empty chain list the cpp applies raise ValueError
without invoking the resampler; on a missing chain the cpp applies raise
KeyError, the python forward apply raises ValueError and the python inverse
apply returns None, all without invoking the resampler; an empty chain list
on the python forward apply is passed to the resampler. -/
theorem C6_empty_or_missing_chain (st stN : ANTsRegistration)
    (moving fixed interp label : String) (ok : Bool)
    (hE : st.reg_transform = some { fwdtransforms := [], invtransforms := [] })
    (hN : stN.reg_transform = none) :
    apply_registration_transform_cpp st moving fixed interp ok
      = (.error (.valueError "List of transforms is empty."), [])
  ∧ apply_registration_inverse_transform_cpp st moving fixed interp label ok
      = (.error (.valueError "List of transforms is empty."), [])
  ∧ apply_registration_transform_cpp stN moving fixed interp ok
      = (.error (.keyError "fwdtransforms"), [])
  ∧ apply_registration_inverse_transform_cpp stN moving fixed interp label ok
      = (.error (.keyError "invtransforms"), [])
  ∧ apply_registration_transform_python stN moving fixed interp ok
      = (.error (.valueError "Python-based ANTs apply registration failed.\n"), [])
  ∧ apply_registration_inverse_transform_python stN moving fixed interp label ok
      = (.ok none, [])
  ∧ (apply_registration_transform_python st moving fixed interp ok).2
      = [TkCall.antsApplyTransforms fixed moving [] interp [false, false]] := by
  refine ⟨?_, ?_, ?_, ?_, ?_, ?_, ?_⟩
  · simp [apply_registration_transform_cpp, hE]
  · simp [apply_registration_inverse_transform_cpp, hE]
  · simp [apply_registration_transform_cpp, hN]
  · simp [apply_registration_inverse_transform_cpp, hN]
  · simp [apply_registration_transform_python, hN]
  · simp [apply_registration_inverse_transform_python, hN]
  · cases ok <;> simp [apply_registration_transform_python, hE]

/-- C6 witness: the amended behaviour on a state caching empty lists and a
fresh state with no chain. -/
theorem C6_witness :
    stEmptyChain.reg_transform = some { fwdtransforms := [], invtransforms := [] } ∧
    stPyNoChain.reg_transform = none ∧
    (apply_registration_transform_cpp stEmptyChain "m.nii.gz" "f.nii.gz" "linear" true
      = (.error (.valueError "List of transforms is empty."), [])
     ∧ apply_registration_inverse_transform_cpp stEmptyChain "m.nii.gz" "f.nii.gz" "linear" "T1" true
      = (.error (.valueError "List of transforms is empty."), [])
     ∧ apply_registration_transform_cpp stPyNoChain "m.nii.gz" "f.nii.gz" "linear" true
      = (.error (.keyError "fwdtransforms"), [])
     ∧ apply_registration_inverse_transform_cpp stPyNoChain "m.nii.gz" "f.nii.gz" "linear" "T1" true
      = (.error (.keyError "invtransforms"), [])
     ∧ apply_registration_transform_python stPyNoChain "m.nii.gz" "f.nii.gz" "linear" true
      = (.error (.valueError "Python-based ANTs apply registration failed.\n"), [])
     ∧ apply_registration_inverse_transform_python stPyNoChain "m.nii.gz" "f.nii.gz" "linear" "T1" true
      = (.ok none, [])
     ∧ (apply_registration_transform_python stEmptyChain "m.nii.gz" "f.nii.gz" "linear" true).2
      = [TkCall.antsApplyTransforms "f.nii.gz" "m.nii.gz" [] "linear" [false, false]]) :=
  ⟨rfl, rfl,
   C6_empty_or_missing_chain stEmptyChain stPyNoChain "m.nii.gz" "f.nii.gz" "linear" "T1" true
     rfl rfl⟩
